import Mathlib

/-!
Shallow embedding of the mcp-responsive MCP server (src/mcp_responsive.py and
src/mcp_responsive_client.py) and proofs about its behaviour.

The server exposes one tool, `search_content`, that builds a fixed-shape JSON
payload from its keyword arguments and posts it to the Responsive content
library endpoint through `make_responsive_request`, classifying failures of
the outbound call into `{"error": message}` dictionaries.
-/

namespace McpResponsive

/-- JSON-compatible values: the payloads exchanged with the remote endpoint
and over the RPC channel. Objects keep insertion order, as Python dicts do. -/
inductive Value where
  | null
  | bool (b : Bool)
  | int (n : Int)
  | str (s : String)
  | list (elems : List Value)
  | obj (fields : List (String × Value))

/-- Module-level constant `base_url` (mcp_responsive.py line 12). -/
def base_url : String := "https://app.rfpio.com"

/-- The URL built at mcp_responsive.py line 25. -/
def searchUrl : String := base_url ++ "/rfpserver/ext/v1/answer-lib/search"

/-- Python truthiness of the `api_token` value read from the environment:
`os.environ.get` yields `None` when the variable is unset; `if not api_token`
treats both `None` and the empty string as absent. -/
def pyTruthy : Option String → Bool
  | none => false
  | some s => !s.isEmpty

/-- One outbound HTTP attempt: `client.post(url, ..., json=data, timeout=30.0)`
(mcp_responsive.py line 29). The trace of these records how many network
attempts an invocation makes. -/
structure NetCall where
  url : String
  payload : Value
  timeoutSeconds : Nat

/-- The environment's behaviour for the single outbound call: either the post
itself fails with `httpx.RequestError` (connection refused, timeout, DNS),
or a response arrives with a status, a text body and an optional parsed JSON
body (`none` when `response.json()` would raise `json.JSONDecodeError`),
or some other exception is raised inside the `try` block. -/
inductive CallOutcome where
  | requestError (cause : String)
  | response (status : Nat) (text : String) (body : Option Value)
  | otherError (message : String)

/-- Outcome of a Python function at its boundary: it returned a value, or an
exception propagated out of it. -/
inductive PyResult where
  | ret (v : Value)
  | raised (message : String)

/-- Whether a `PyResult` is a returned value (no exception escaped). -/
def PyResult.isRet : PyResult → Bool
  | .ret _ => true
  | .raised _ => false

/-- The error dictionaries `{"error": message}` returned on the failure
paths of `make_responsive_request` (lines 34, 37, 40, 43). -/
def errObj (message : String) : Value := .obj [("error", .str message)]

/-- httpx `Response.raise_for_status` raises `HTTPStatusError` exactly when
the status is outside the 2xx success range. -/
def is2xx (status : Nat) : Bool := 200 ≤ status && status ≤ 299

/-- Embedding of `make_responsive_request` (mcp_responsive.py lines 15-43).
Inputs are the module-level `api_token` value and the environment's behaviour
for the outbound call; the result pairs the function's boundary outcome with
the trace of outbound attempts made.

Control flow of the source: if the token is falsy, `raise Exception(...)`
(line 19) before any network activity; otherwise one `client.post` with
`timeout=30.0` (line 29), then `raise_for_status` (line 30), then
`response.json()` (line 31), with `except` clauses converting
`httpx.RequestError`, `httpx.HTTPStatusError`, `json.JSONDecodeError` and any
other `Exception` into returned `{"error": ...}` dictionaries. -/
def make_responsive_request (api_token : Option String) (data : Value)
    (net : CallOutcome) : PyResult × List NetCall :=
  if pyTruthy api_token = false then
    (.raised "RESPONSIVE_API_TOKEN environment variable not set", [])
  else
    let call : NetCall := ⟨searchUrl, data, 30⟩
    match net with
    | .requestError cause =>
        (.ret (errObj ("Error communicating with Responsive API: " ++ cause)), [call])
    | .response status _text body =>
        if is2xx status = false then
          (.ret (errObj ("HTTP Error: " ++ toString status)), [call])
        else
          match body with
          | none => (.ret (errObj "Invalid JSON response from server"), [call])
          | some v => (.ret v, [call])
    | .otherError message =>
        (.ret (errObj ("An unexpected error occurred: " ++ message)), [call])

/-- The fully-resolved parameter set of the `search_content` tool: one field
per parameter of the signature at mcp_responsive.py lines 47-54, in source
order, with concrete (already-defaulted) values. -/
structure SearchRequest where
  keyword : String
  approvers : List String
  businessUnits : List String
  collectionList : List String
  cursor : String
  customFields : List (String × Value)
  facetFields : List String
  flagFilter : String
  hasAlertText : Bool
  hasAttachment : Bool
  hasImage : Bool
  hasOpenComment : Bool
  idsList : List String
  languageSearch : List String
  lastUpdatedBy : List String
  limit : Int
  metadata : Bool
  owners : List String
  projectSearch : List String
  sectionSearch : List String
  starRating : Int
  tagSearch : List String

/-- An argument mapping for one invocation of `search_content`: `none` means
the caller omitted that keyword argument; `keyword` has no default in the
signature and is always supplied here. -/
structure SearchArgs where
  keyword : String
  approvers : Option (List String) := none
  businessUnits : Option (List String) := none
  collectionList : Option (List String) := none
  cursor : Option String := none
  customFields : Option (List (String × Value)) := none
  facetFields : Option (List String) := none
  flagFilter : Option String := none
  hasAlertText : Option Bool := none
  hasAttachment : Option Bool := none
  hasImage : Option Bool := none
  hasOpenComment : Option Bool := none
  idsList : Option (List String) := none
  languageSearch : Option (List String) := none
  lastUpdatedBy : Option (List String) := none
  limit : Option Int := none
  metadata : Option Bool := none
  owners : Option (List String) := none
  projectSearch : Option (List String) := none
  sectionSearch : Option (List String) := none
  starRating : Option Int := none
  tagSearch : Option (List String) := none

/-- Parameter binding of `search_content`: each omitted argument takes the
default declared in the signature (lines 47-54): `[]` for the list
parameters, `{}` for `customFields`, `"*"` for `cursor`, `"ALL"` for
`flagFilter`, `False` for the booleans, `25` for `limit`, `0` for
`starRating`. -/
def resolve (a : SearchArgs) : SearchRequest where
  keyword := a.keyword
  approvers := a.approvers.getD []
  businessUnits := a.businessUnits.getD []
  collectionList := a.collectionList.getD []
  cursor := a.cursor.getD "*"
  customFields := a.customFields.getD []
  facetFields := a.facetFields.getD []
  flagFilter := a.flagFilter.getD "ALL"
  hasAlertText := a.hasAlertText.getD false
  hasAttachment := a.hasAttachment.getD false
  hasImage := a.hasImage.getD false
  hasOpenComment := a.hasOpenComment.getD false
  idsList := a.idsList.getD []
  languageSearch := a.languageSearch.getD []
  lastUpdatedBy := a.lastUpdatedBy.getD []
  limit := a.limit.getD 25
  metadata := a.metadata.getD false
  owners := a.owners.getD []
  projectSearch := a.projectSearch.getD []
  sectionSearch := a.sectionSearch.getD []
  starRating := a.starRating.getD 0
  tagSearch := a.tagSearch.getD []

/-- A Python list of strings as a JSON value. -/
def strList (xs : List String) : Value := .list (xs.map .str)

/-- The `data` dictionary literal built by `search_content`
(mcp_responsive.py lines 87-110), entries in source order. -/
def payloadOf (r : SearchRequest) : List (String × Value) :=
  [("keyword", .str r.keyword),
   ("approvers", strList r.approvers),
   ("businessUnits", strList r.businessUnits),
   ("collectionList", strList r.collectionList),
   ("cursor", .str r.cursor),
   ("customFields", .obj r.customFields),
   ("facetFields", strList r.facetFields),
   ("flagFilter", .str r.flagFilter),
   ("hasAlertText", .bool r.hasAlertText),
   ("hasAttachment", .bool r.hasAttachment),
   ("hasImage", .bool r.hasImage),
   ("hasOpenComment", .bool r.hasOpenComment),
   ("idsList", strList r.idsList),
   ("languageSearch", strList r.languageSearch),
   ("lastUpdatedBy", strList r.lastUpdatedBy),
   ("limit", .int r.limit),
   ("metadata", .bool r.metadata),
   ("owners", strList r.owners),
   ("projectSearch", strList r.projectSearch),
   ("sectionSearch", strList r.sectionSearch),
   ("starRating", .int r.starRating),
   ("tagSearch", strList r.tagSearch)]

/-- The outbound payload `search_content` builds from an argument mapping:
parameter binding with signature defaults, then the `data` dict literal. -/
def buildData (a : SearchArgs) : List (String × Value) := payloadOf (resolve a)

/-- The declared field names of the SearchRequest shape, in the order of the
`data` dictionary at lines 87-110. -/
def declaredFields : List String :=
  ["keyword", "approvers", "businessUnits", "collectionList", "cursor",
   "customFields", "facetFields", "flagFilter", "hasAlertText",
   "hasAttachment", "hasImage", "hasOpenComment", "idsList",
   "languageSearch", "lastUpdatedBy", "limit", "metadata", "owners",
   "projectSearch", "sectionSearch", "starRating", "tagSearch"]

/-- Embedding of the `search_content` tool handler (lines 46-113): builds the
`data` payload and returns `await make_responsive_request(data)`, with the
boundary outcome and network trace of that call. -/
def search_content (a : SearchArgs) (api_token : Option String)
    (net : CallOutcome) : PyResult × List NetCall :=
  make_responsive_request api_token (.obj (buildData a)) net

/-- One parameter of a tool's schema: its name, whether it is required
(no default in the signature), and its default value when optional. -/
structure ParamSpec where
  name : String
  required : Bool
  default : Option Value

/-- A tool advertised by the server: name and parameter schema. -/
structure ToolDescriptor where
  name : String
  params : List ParamSpec

/-- The parameter schema of `search_content`, read off the signature at
mcp_responsive.py lines 47-54: `keyword: str` has no default and is required;
every other parameter carries the default shown there. -/
def searchContentParams : List ParamSpec :=
  [⟨"keyword", true, none⟩,
   ⟨"approvers", false, some (.list [])⟩,
   ⟨"businessUnits", false, some (.list [])⟩,
   ⟨"collectionList", false, some (.list [])⟩,
   ⟨"cursor", false, some (.str "*")⟩,
   ⟨"customFields", false, some (.obj [])⟩,
   ⟨"facetFields", false, some (.list [])⟩,
   ⟨"flagFilter", false, some (.str "ALL")⟩,
   ⟨"hasAlertText", false, some (.bool false)⟩,
   ⟨"hasAttachment", false, some (.bool false)⟩,
   ⟨"hasImage", false, some (.bool false)⟩,
   ⟨"hasOpenComment", false, some (.bool false)⟩,
   ⟨"idsList", false, some (.list [])⟩,
   ⟨"languageSearch", false, some (.list [])⟩,
   ⟨"lastUpdatedBy", false, some (.list [])⟩,
   ⟨"limit", false, some (.int 25)⟩,
   ⟨"metadata", false, some (.bool false)⟩,
   ⟨"owners", false, some (.list [])⟩,
   ⟨"projectSearch", false, some (.list [])⟩,
   ⟨"sectionSearch", false, some (.list [])⟩,
   ⟨"starRating", false, some (.int 0)⟩,
   ⟨"tagSearch", false, some (.list [])⟩]

/-- The server's tool registry: the module applies `@mcp.tool()` exactly once
(line 46), so exactly one descriptor is registered at startup. -/
def registeredTools : List ToolDescriptor := [⟨"search_content", searchContentParams⟩]

/-- The sequence of descriptors `listTools()` returns over the channel. -/
def listTools : List ToolDescriptor := registeredTools

/-- Modelled from the spec: the field set of §3's SearchRequest with each
field's stated default (`none` marks the required `keyword`), listed here in
the signature's order for comparison with `searchContentParams`. -/
def specFieldDefaults : List (String × Option Value) :=
  [("keyword", none),
   ("approvers", some (.list [])),
   ("businessUnits", some (.list [])),
   ("collectionList", some (.list [])),
   ("cursor", some (.str "*")),
   ("customFields", some (.obj [])),
   ("facetFields", some (.list [])),
   ("flagFilter", some (.str "ALL")),
   ("hasAlertText", some (.bool false)),
   ("hasAttachment", some (.bool false)),
   ("hasImage", some (.bool false)),
   ("hasOpenComment", some (.bool false)),
   ("idsList", some (.list [])),
   ("languageSearch", some (.list [])),
   ("lastUpdatedBy", some (.list [])),
   ("limit", some (.int 25)),
   ("metadata", some (.bool false)),
   ("owners", some (.list [])),
   ("projectSearch", some (.list [])),
   ("sectionSearch", some (.list [])),
   ("starRating", some (.int 0)),
   ("tagSearch", some (.list []))]

/-- The response envelope carried back over the RPC channel for one
`callTool` invocation. -/
structure RpcEnvelope where
  ok : Bool
  payload : Option Value
  errMessage : Option String

/-- Modelled from the spec: the dispatcher/RPC layer (the external fastmcp
machinery, not present under src/) wraps a tool handler's boundary outcome
in a response envelope: a returned value becomes a success envelope carrying
that value as payload, and an exception raised by the handler becomes a
failure envelope (`ok = false`) carrying the exception's message. -/
def wrapEnvelope : PyResult → RpcEnvelope
  | .ret v => ⟨true, some v, none⟩
  | .raised m => ⟨false, none, some m⟩

/-- The response envelope a `callTool("search_content", ...)` invocation
produces, for a given token configuration and network behaviour. -/
def callToolEnvelope (a : SearchArgs) (api_token : Option String)
    (net : CallOutcome) : RpcEnvelope :=
  wrapEnvelope (search_content a api_token net).1

/-- Whether the remote-call outcome is a failure (any of the four failure
classes of §4.2: transport error, non-2xx status, undecodable body, or any
other exception). -/
def CallOutcome.isFailure : CallOutcome → Bool
  | .requestError _ => true
  | .response status _ body =>
      if is2xx status = false then true
      else match body with
        | none => true
        | some _ => false
  | .otherError _ => true

/-- Whether a JSON value is a list whose elements are all strings. -/
def isStrListVal : Value → Bool
  | .list elems => elems.all fun v => match v with | .str _ => true | _ => false
  | _ => false

/-- The names of the list-of-string typed parameters of the signature. -/
def listParamNames : List String :=
  ["approvers", "businessUnits", "collectionList", "facetFields", "idsList",
   "languageSearch", "lastUpdatedBy", "owners", "projectSearch",
   "sectionSearch", "tagSearch"]

/-- Whether an untyped argument mapping lacks a string `keyword`. -/
def keywordBad (args : List (String × Value)) : Bool :=
  match args.lookup "keyword" with
  | some (.str _) => false
  | _ => true

/-- Whether some list-typed parameter is supplied with a value that is not a
sequence of strings. -/
def someListParamBad (args : List (String × Value)) : Bool :=
  listParamNames.any fun n =>
    match args.lookup n with
    | some v => !isStrListVal v
    | none => false

/-- Modelled from the spec: `build` of §4.1. Argument validation for the
search tool is performed by the external fastmcp layer from the declared
signature and is not present under src/; per the spec it applies the declared
defaults for omitted parameters and fails with a Validation error when
`keyword` is missing or not a string, or when a list-typed parameter is not a
sequence of strings. -/
def build (args : List (String × Value)) : Except String (List (String × Value)) :=
  if keywordBad args then .error "Validation"
  else if someListParamBad args then .error "Validation"
  else .ok (searchContentParams.map fun p =>
    (p.name, (args.lookup p.name).getD (p.default.getD .null)))

/-- Modelled from the spec: the per-channel state machine of §4.4,
`Uninitialized → Handshaking → Ready → Closed`. -/
inductive ChanState where
  | uninitialized
  | handshaking
  | ready
  | closed
deriving DecidableEq

/-- How a client-side pending call ends: a correlated response arrived, or
the channel closed while the call was outstanding. -/
inductive ClientOutcome where
  | answered (v : Value)
  | channelClosed

/-- Modelled from the spec: the client-visible state of one RPC channel
(§4.4, §5): its state-machine state, the correlation ids of requests sent
but not yet answered, and the resolutions delivered to the client. -/
structure Channel where
  state : ChanState
  pending : List Nat
  resolved : List (Nat × ClientOutcome)

/-- Events on the channel: the handshake steps, a client request (carrying a
fresh correlation id), a correlated server response, and closure (either
endpoint exiting or the stream ending). -/
inductive ChanEvent where
  | startHandshake
  | handshakeDone
  | request (cid : Nat)
  | response (cid : Nat) (v : Value)
  | close

/-- Modelled from the spec: the channel transition function of §4.4.
Requests are accepted only in `Ready`; a response resolves the matching
pending call; closure transitions to `Closed` and resolves every
still-pending call with `ChannelClosed` on the client side, so no wait
remains outstanding. -/
def Channel.step (c : Channel) (e : ChanEvent) : Channel :=
  match e with
  | .startHandshake =>
      if c.state = .uninitialized then { c with state := .handshaking } else c
  | .handshakeDone =>
      if c.state = .handshaking then { c with state := .ready } else c
  | .request cid =>
      if c.state = .ready then { c with pending := c.pending ++ [cid] } else c
  | .response cid v =>
      if c.state = .ready ∧ cid ∈ c.pending then
        { c with pending := c.pending.filter (· ≠ cid),
                 resolved := c.resolved ++ [(cid, .answered v)] }
      else c
  | .close =>
      { state := .closed,
        pending := [],
        resolved := c.resolved ++ c.pending.map fun cid => (cid, .channelClosed) }

/-- The values held, between invocations, by the shared default objects of
`search_content`'s list- and mapping-typed parameters: Python evaluates the
defaults `[]` and `{}` once at function definition, so all invocations that
omit such a parameter share the same object, and a mutation through it would
persist into later invocations. -/
structure DefaultStore where
  approvers : List String
  businessUnits : List String
  collectionList : List String
  customFields : List (String × Value)
  facetFields : List String
  idsList : List String
  languageSearch : List String
  lastUpdatedBy : List String
  owners : List String
  projectSearch : List String
  sectionSearch : List String
  tagSearch : List String

/-- The defaults as created at function definition: empty list and dict
objects. -/
def initialDefaults : DefaultStore :=
  ⟨[], [], [], [], [], [], [], [], [], [], [], []⟩

/-- Parameter binding against the current contents of the shared default
objects: an omitted list/dict parameter is bound to the shared object, an
omitted scalar parameter to its (immutable) default. -/
def resolveWith (s : DefaultStore) (a : SearchArgs) : SearchRequest where
  keyword := a.keyword
  approvers := a.approvers.getD s.approvers
  businessUnits := a.businessUnits.getD s.businessUnits
  collectionList := a.collectionList.getD s.collectionList
  cursor := a.cursor.getD "*"
  customFields := a.customFields.getD s.customFields
  facetFields := a.facetFields.getD s.facetFields
  flagFilter := a.flagFilter.getD "ALL"
  hasAlertText := a.hasAlertText.getD false
  hasAttachment := a.hasAttachment.getD false
  hasImage := a.hasImage.getD false
  hasOpenComment := a.hasOpenComment.getD false
  idsList := a.idsList.getD s.idsList
  languageSearch := a.languageSearch.getD s.languageSearch
  lastUpdatedBy := a.lastUpdatedBy.getD s.lastUpdatedBy
  limit := a.limit.getD 25
  metadata := a.metadata.getD false
  owners := a.owners.getD s.owners
  projectSearch := a.projectSearch.getD s.projectSearch
  sectionSearch := a.sectionSearch.getD s.sectionSearch
  starRating := a.starRating.getD 0
  tagSearch := a.tagSearch.getD s.tagSearch

/-- One invocation of `search_content`'s body against the shared default
objects: the body (lines 87-113) is a dict literal built from the bound
parameter values, a `print` of its JSON serialization, and the call to
`make_responsive_request` — each of these reads the bound objects and none
of them assigns to, appends to or otherwise mutates them, so the store after
the invocation is the store it started with. -/
def search_content_invoke (s : DefaultStore) (a : SearchArgs) :
    List (String × Value) × DefaultStore :=
  (payloadOf (resolveWith s a), s)

/-- Whether a JSON value is an object carrying an `error` key. -/
def hasErrorKey : Value → Bool
  | .obj fields => (fields.lookup "error").isSome
  | _ => false

/-- C1 counterexample: with no token configured, `make_responsive_request`
does not return a value at all — the missing-credential failure escapes as a
raised exception, so no `ErrorEnvelope{kind: Configuration}` value is
returned. -/
theorem noToken_raises_instead_of_returning_value :
    (make_responsive_request none (.obj [("keyword", .str "conduct")])
        (.response 200 "" (some (.obj [])))).1 =
      .raised "RESPONSIVE_API_TOKEN environment variable not set" ∧
    (make_responsive_request none (.obj [("keyword", .str "conduct")])
        (.response 200 "" (some (.obj [])))).1.isRet = false :=
  ⟨rfl, rfl⟩

/-- C1 (amended): when no bearer credential is configured, the call fails
fast before any network attempt (the trace of outbound calls is empty), but
it does so by raising an exception past its boundary rather than by
returning an `ErrorEnvelope{kind: Configuration}` value. -/
theorem missing_token_fails_fast_by_raising (tok : Option String) (data : Value)
    (net : CallOutcome) (h : pyTruthy tok = false) :
    make_responsive_request tok data net =
      (.raised "RESPONSIVE_API_TOKEN environment variable not set", []) := by
  simp [make_responsive_request, h]

/-- Witness for the amended C1 theorem at the unset-token state. -/
theorem missing_token_fails_fast_by_raising_witness :
    pyTruthy none = false ∧
    make_responsive_request none (.obj []) (.otherError "x") =
      (.raised "RESPONSIVE_API_TOKEN environment variable not set", []) :=
  ⟨rfl, missing_token_fails_fast_by_raising none (.obj []) (.otherError "x") rfl⟩

/-- C2: with a credential configured, no exception escapes
`make_responsive_request`: every outcome of the outbound call is returned as
a value, and the failure outcomes are classified — a network-level failure
into the transport error dictionary naming the underlying cause, a non-2xx
status into the HTTP error dictionary naming the status code, an
undecodable body into the decode error dictionary, and any other exception
into the unexpected error dictionary naming the cause. -/
theorem send_never_raises_and_classifies (tok : Option String) (data : Value)
    (net : CallOutcome) (h : pyTruthy tok = true) :
    (make_responsive_request tok data net).1.isRet = true ∧
    (∀ cause, net = .requestError cause →
      (make_responsive_request tok data net).1 =
        .ret (errObj ("Error communicating with Responsive API: " ++ cause))) ∧
    (∀ status text body, net = .response status text body → is2xx status = false →
      (make_responsive_request tok data net).1 =
        .ret (errObj ("HTTP Error: " ++ toString status))) ∧
    (∀ status text, net = .response status text none → is2xx status = true →
      (make_responsive_request tok data net).1 =
        .ret (errObj "Invalid JSON response from server")) ∧
    (∀ message, net = .otherError message →
      (make_responsive_request tok data net).1 =
        .ret (errObj ("An unexpected error occurred: " ++ message))) := by
  refine ⟨?_, ?_, ?_, ?_, ?_⟩
  · cases net with
    | requestError c => simp [make_responsive_request, h, PyResult.isRet]
    | response s t b =>
        cases b with
        | none =>
            by_cases h2 : is2xx s = false <;>
              simp [make_responsive_request, h, h2, PyResult.isRet]
        | some v =>
            by_cases h2 : is2xx s = false <;>
              simp [make_responsive_request, h, h2, PyResult.isRet]
    | otherError m => simp [make_responsive_request, h, PyResult.isRet]
  · intro cause hc
    subst hc
    simp [make_responsive_request, h]
  · intro s t b hr h2
    subst hr
    simp [make_responsive_request, h, h2]
  · intro s t hr h2
    subst hr
    simp [make_responsive_request, h, h2]
  · intro m hm
    subst hm
    simp [make_responsive_request, h]

/-- Witness for the C2 theorem at a configured token and a transport
failure. -/
theorem send_never_raises_and_classifies_witness :
    pyTruthy (some "t") = true ∧
    (make_responsive_request (some "t") (.obj []) (.requestError "boom")).1 =
      .ret (errObj ("Error communicating with Responsive API: " ++ "boom")) :=
  ⟨rfl,
   (send_never_raises_and_classifies (some "t") (.obj [])
      (.requestError "boom") rfl).2.1 "boom" rfl⟩

/-- C3 counterexample: with a credential configured, an invocation whose
remote call fails with HTTP 500 — a failed invocation — produces a response
envelope with `ok = true`: the remote-side failure is coerced into a
success envelope rather than marked with `ok = false`. -/
theorem http500_coerced_into_success_envelope :
    (CallOutcome.response 500 "" none).isFailure = true ∧
    (callToolEnvelope { keyword := "conduct" } (some "token")
        (.response 500 "" none)).ok = true :=
  ⟨rfl, rfl⟩

/-- C3 (amended): the response envelope marks failure (`ok = false`, with a
human-readable message) only when the handler raises, as the missing-token
path does; every remote-side failure (transport, HTTP status, decode,
unexpected) travels in a success envelope (`ok = true`) whose payload is a
mapping with an `error` key carrying the message, so those failures are
signalled in-band in the payload rather than by the envelope flag. -/
theorem failure_envelope_shape (a : SearchArgs) (tok : Option String)
    (net : CallOutcome) :
    (pyTruthy tok = false →
      (callToolEnvelope a tok net).ok = false ∧
      (callToolEnvelope a tok net).errMessage =
        some "RESPONSIVE_API_TOKEN environment variable not set") ∧
    (pyTruthy tok = true → net.isFailure = true →
      (callToolEnvelope a tok net).ok = true ∧
      ∃ v, (callToolEnvelope a tok net).payload = some v ∧ hasErrorKey v = true) := by
  constructor
  · intro h
    simp [callToolEnvelope, search_content, make_responsive_request, h, wrapEnvelope]
  · intro h hf
    cases net with
    | requestError c =>
        refine ⟨?_, errObj ("Error communicating with Responsive API: " ++ c), ?_, rfl⟩ <;>
          simp [callToolEnvelope, search_content, make_responsive_request, h, wrapEnvelope]
    | response s t b =>
        by_cases h2 : is2xx s = false
        · refine ⟨?_, errObj ("HTTP Error: " ++ toString s), ?_, rfl⟩ <;>
            simp [callToolEnvelope, search_content, make_responsive_request, h, h2, wrapEnvelope]
        · cases b with
          | none =>
              refine ⟨?_, errObj "Invalid JSON response from server", ?_, rfl⟩ <;>
                simp [callToolEnvelope, search_content, make_responsive_request, h, h2, wrapEnvelope]
          | some v =>
              exfalso
              simp [CallOutcome.isFailure, h2] at hf
    | otherError m =>
        refine ⟨?_, errObj ("An unexpected error occurred: " ++ m), ?_, rfl⟩ <;>
          simp [callToolEnvelope, search_content, make_responsive_request, h, wrapEnvelope]

/-- Witness for the amended C3 theorem at the missing-token state. -/
theorem failure_envelope_shape_witness :
    (callToolEnvelope { keyword := "k" } none (.otherError "e")).ok = false ∧
    (callToolEnvelope { keyword := "k" } none (.otherError "e")).errMessage =
      some "RESPONSIVE_API_TOKEN environment variable not set" :=
  (failure_envelope_shape { keyword := "k" } none (.otherError "e")).1 rfl

/-- C4: with a credential configured, a 2xx response whose body parses to a
JSON value yields that parsed body, returned verbatim as the success
value. -/
theorem success_payload_returned_verbatim (tok : Option String) (data : Value)
    (status : Nat) (text : String) (body : Value)
    (h : pyTruthy tok = true) (h2 : is2xx status = true) :
    (make_responsive_request tok data (.response status text (some body))).1 =
      .ret body := by
  simp [make_responsive_request, h, h2]

/-- Witness for the C4 theorem: HTTP 200 with the spec's example body
round-trips unchanged. -/
theorem success_payload_returned_verbatim_witness :
    pyTruthy (some "t") = true ∧ is2xx 200 = true ∧
    (make_responsive_request (some "t") (.obj [])
        (.response 200 ""
          (some (.obj [("results", .list []), ("cursor", .str "*")])))).1 =
      .ret (.obj [("results", .list []), ("cursor", .str "*")]) :=
  ⟨rfl, rfl,
   success_payload_returned_verbatim (some "t") (.obj []) 200 ""
     (.obj [("results", .list []), ("cursor", .str "*")]) rfl rfl⟩

/-- C5: every built payload lists all 22 declared fields, in the stable
source order, and each optional parameter the caller omitted appears with
its documented default. -/
theorem build_complete_stable_shape (a : SearchArgs) :
    (buildData a).map Prod.fst = declaredFields ∧
    (a.approvers = none → (buildData a).lookup "approvers" = some (.list [])) ∧
    (a.businessUnits = none → (buildData a).lookup "businessUnits" = some (.list [])) ∧
    (a.collectionList = none → (buildData a).lookup "collectionList" = some (.list [])) ∧
    (a.cursor = none → (buildData a).lookup "cursor" = some (.str "*")) ∧
    (a.customFields = none → (buildData a).lookup "customFields" = some (.obj [])) ∧
    (a.facetFields = none → (buildData a).lookup "facetFields" = some (.list [])) ∧
    (a.flagFilter = none → (buildData a).lookup "flagFilter" = some (.str "ALL")) ∧
    (a.hasAlertText = none → (buildData a).lookup "hasAlertText" = some (.bool false)) ∧
    (a.hasAttachment = none → (buildData a).lookup "hasAttachment" = some (.bool false)) ∧
    (a.hasImage = none → (buildData a).lookup "hasImage" = some (.bool false)) ∧
    (a.hasOpenComment = none → (buildData a).lookup "hasOpenComment" = some (.bool false)) ∧
    (a.idsList = none → (buildData a).lookup "idsList" = some (.list [])) ∧
    (a.languageSearch = none → (buildData a).lookup "languageSearch" = some (.list [])) ∧
    (a.lastUpdatedBy = none → (buildData a).lookup "lastUpdatedBy" = some (.list [])) ∧
    (a.limit = none → (buildData a).lookup "limit" = some (.int 25)) ∧
    (a.metadata = none → (buildData a).lookup "metadata" = some (.bool false)) ∧
    (a.owners = none → (buildData a).lookup "owners" = some (.list [])) ∧
    (a.projectSearch = none → (buildData a).lookup "projectSearch" = some (.list [])) ∧
    (a.sectionSearch = none → (buildData a).lookup "sectionSearch" = some (.list [])) ∧
    (a.starRating = none → (buildData a).lookup "starRating" = some (.int 0)) ∧
    (a.tagSearch = none → (buildData a).lookup "tagSearch" = some (.list [])) := by
  refine ⟨rfl, ?_, ?_, ?_, ?_, ?_, ?_, ?_, ?_, ?_, ?_, ?_, ?_, ?_, ?_, ?_, ?_,
    ?_, ?_, ?_, ?_, ?_⟩ <;>
    · intro h
      simp [buildData, payloadOf, resolve, List.lookup, h, strList]

/-- Witness for the C5 theorem at an argument mapping omitting every
optional parameter. -/
theorem build_complete_stable_shape_witness :
    (buildData { keyword := "conduct" }).lookup "limit" = some (.int 25) ∧
    (buildData { keyword := "conduct" }).lookup "flagFilter" = some (.str "ALL") ∧
    (buildData { keyword := "conduct" }).lookup "cursor" = some (.str "*") := by
  obtain ⟨h1, h2, h3, h4, h5, h6, h7, h8, h9, h10, h11, h12, h13, h14, h15,
    h16, h17, h18, h19, h20, h21, h22⟩ :=
    build_complete_stable_shape { keyword := "conduct" }
  exact ⟨h16 rfl, h8 rfl, h5 rfl⟩

/-- C6 counterexample: the `search_content` parameter schema has 22
parameters, not 21 — the documented parameter set (the SearchRequest field
set) counts 22 names, `keyword` included. -/
theorem schema_has_22_params_not_21 :
    searchContentParams.length = 22 ∧ ¬ searchContentParams.length = 21 ∧
    declaredFields.length = 22 := by
  refine ⟨rfl, ?_, rfl⟩
  decide

/-- C6 (amended): `listTools()` returns exactly one descriptor, named
`search_content`, whose parameter schema lists all 22 documented parameters
of the SearchRequest field set, each with its stated default; those schema
defaults agree with the payload the builder produces for an all-omitted
argument mapping. -/
theorem listTools_single_descriptor_full_schema :
    listTools.map ToolDescriptor.name = ["search_content"] ∧
    listTools.length = 1 ∧
    searchContentParams.map ParamSpec.name = declaredFields ∧
    (searchContentParams.map fun p => (p.name, p.default)) = specFieldDefaults ∧
    (∀ k, buildData { keyword := k } =
      ("keyword", .str k) ::
        searchContentParams.tail.map fun p => (p.name, p.default.getD .null)) :=
  ⟨rfl, rfl, rfl, rfl, fun _ => rfl⟩

/-- C7: spec-modelled `build` rejects with a Validation error — rather than
producing a SearchRequest — whenever `keyword` is missing or not a string,
or some list-typed parameter is supplied with a value that is not a
sequence of strings. -/
theorem build_rejects_invalid_arguments (args : List (String × Value))
    (h : keywordBad args = true ∨ someListParamBad args = true) :
    build args = .error "Validation" := by
  cases h with
  | inl hk => simp [build, hk]
  | inr hl =>
      by_cases hk : keywordBad args = true <;> simp [build, hk, hl]

/-- Witness for the C7 theorem: a mapping whose `approvers` value is a list
containing a non-string is rejected. -/
theorem build_rejects_invalid_arguments_witness :
    (keywordBad [("keyword", Value.str "k"), ("approvers", Value.list [Value.int 3])] = true ∨
      someListParamBad
        [("keyword", Value.str "k"), ("approvers", Value.list [Value.int 3])] = true) ∧
    build [("keyword", Value.str "k"), ("approvers", Value.list [Value.int 3])] =
      .error "Validation" :=
  ⟨Or.inr rfl,
   build_rejects_invalid_arguments
     [("keyword", Value.str "k"), ("approvers", Value.list [Value.int 3])] (Or.inr rfl)⟩

/-- C8: with a credential configured, an invocation issues exactly one
outbound call, to the search endpoint with a 30-second timeout; and no
configuration ever issues more than one call (no retry). -/
theorem single_outbound_call_thirty_second_timeout (tok : Option String)
    (data : Value) (net : CallOutcome) (h : pyTruthy tok = true) :
    (make_responsive_request tok data net).2 = [⟨searchUrl, data, 30⟩] ∧
    (∀ tok2 data2 net2,
      ((make_responsive_request tok2 data2 net2).2).length ≤ 1) := by
  constructor
  · cases net with
    | requestError c => simp [make_responsive_request, h]
    | response s t b =>
        cases b with
        | none =>
            by_cases h2 : is2xx s = false <;> simp [make_responsive_request, h, h2]
        | some v =>
            by_cases h2 : is2xx s = false <;> simp [make_responsive_request, h, h2]
    | otherError m => simp [make_responsive_request, h]
  · intro tok2 data2 net2
    by_cases ht : pyTruthy tok2 = false
    · simp [make_responsive_request, ht]
    · cases net2 with
      | requestError c => simp [make_responsive_request, ht]
      | response s t b =>
          cases b with
          | none =>
              by_cases h2 : is2xx s = false <;> simp [make_responsive_request, ht, h2]
          | some v =>
              by_cases h2 : is2xx s = false <;> simp [make_responsive_request, ht, h2]
      | otherError m => simp [make_responsive_request, ht]

/-- Witness for the C8 theorem at a configured token and a transport
failure. -/
theorem single_outbound_call_thirty_second_timeout_witness :
    pyTruthy (some "t") = true ∧
    (make_responsive_request (some "t") (.obj []) (.requestError "x")).2 =
      [⟨searchUrl, .obj [], 30⟩] :=
  ⟨rfl,
   (single_outbound_call_thirty_second_timeout (some "t") (.obj [])
      (.requestError "x") rfl).1⟩

/-- C9: spec-modelled channel closure resolves every call still pending at
that point with ChannelClosed on the client side and leaves nothing
pending, so no client-side wait remains outstanding. -/
theorem close_resolves_pending_with_channelClosed (c : Channel) (cid : Nat)
    (h : cid ∈ c.pending) :
    (c.step .close).state = .closed ∧
    (c.step .close).pending = [] ∧
    (cid, ClientOutcome.channelClosed) ∈ (c.step .close).resolved := by
  refine ⟨rfl, rfl, ?_⟩
  simp only [Channel.step, List.mem_append, List.mem_map]
  exact Or.inr ⟨cid, h, rfl⟩

/-- Witness for the C9 theorem at a ready channel with one outstanding
call. -/
theorem close_resolves_pending_with_channelClosed_witness :
    7 ∈ (Channel.mk .ready [7] []).pending ∧
    ((Channel.mk .ready [7] []).step .close).pending = [] ∧
    (7, ClientOutcome.channelClosed) ∈
      ((Channel.mk .ready [7] []).step .close).resolved := by
  have h := close_resolves_pending_with_channelClosed ⟨.ready, [7], []⟩ 7 (by simp)
  exact ⟨by simp, h.2.1, h.2.2⟩

/-- C10: an invocation of `search_content` leaves the shared default
objects exactly as it found them, two sequential invocations with equal
explicit arguments build equal payloads, and from the pristine defaults the
store semantics coincides with the pure builder. -/
theorem invoke_pure_and_deterministic (s : DefaultStore) (a : SearchArgs) :
    (search_content_invoke s a).2 = s ∧
    (search_content_invoke ((search_content_invoke s a).2) a).1 =
      (search_content_invoke s a).1 ∧
    (search_content_invoke initialDefaults a).1 = buildData a :=
  ⟨rfl, rfl, rfl⟩

end McpResponsive
